import Mathlib

/-!
Verification of the token lifecycle and session-trust subsystem of the
LIUHUANUCAS/auth service, shallowly embedded from the Go source.

Modelling conventions, stated once:
* Go `time.Time` / unix instants are `Int` seconds; `time.Duration` TTLs are
  `Int` seconds (the source's `15 * time.Minute` becomes `15*60`, etc.).
* The Redis store (`go-redis` client, the only external store) is a pure
  association list from string keys to stored values with their TTL; `SET`,
  `GET`, `DEL`, `EXISTS` are single-key and total, so the source's
  dependency-failure branches (store unreachable, HTTP 500 paths guarded by
  `err != nil` on store calls) are unreachable in the model.
* JWT compact serialization (`golang-jwt/jwt/v5`) is modelled symbolically:
  a signed token is a record of its claims, its header algorithm and the key
  its HMAC signature binds to; `encodeSignedToken` is an injective string
  serialization with `decodeSignedToken` as its parser (standing in for
  base64 encode/parse + signature verification, which for HS256 succeeds
  exactly when the verifying key equals the signing key).
* JSON marshalling of the `User` record (`json.Marshal`) is modelled as the
  ordered field/value list that Go emits, including `omitempty` semantics:
  a field tagged `omitempty` is present iff its value is non-empty.
* `gin` request binding (`ShouldBindJSON` with `binding:"..."` tags) is
  modelled as an explicit validity check at the top of each handler;
  `required` on a string fails exactly on the empty string (validator v10
  rejects zero values), `min=N`/`max=N` bound the length, and `email` is
  abstracted as containing an at-sign.
-/

/-! ## Injective serialization primitives (model of the JWT wire format) -/

/-- Unary length marker terminated by a colon. -/
def encNat : Nat → List Char
  | 0 => [':']
  | n + 1 => '1' :: encNat n

/-- Parse a unary length marker. -/
def decNat : List Char → Option (Nat × List Char)
  | [] => none
  | c :: rest =>
    if c = ':' then some (0, rest)
    else if c = '1' then (decNat rest).map (fun p => (p.1 + 1, p.2))
    else none

/-- Length-prefixed string field. -/
def encStrField (s : String) : List Char := encNat s.data.length ++ s.data

/-- Parse a length-prefixed string field. -/
def decStrField (l : List Char) : Option (String × List Char) :=
  match decNat l with
  | none => none
  | some (n, rest) =>
    if n ≤ rest.length then some (String.mk (rest.take n), rest.drop n) else none

/-- Sign-tagged integer field (unary magnitude). -/
def encIntField : Int → List Char
  | .ofNat n => '+' :: encNat n
  | .negSucc n => '-' :: encNat n

/-- Parse a sign-tagged integer field. -/
def decIntField : List Char → Option (Int × List Char)
  | [] => none
  | c :: rest =>
    if c = '+' then (decNat rest).map (fun p => (Int.ofNat p.1, p.2))
    else if c = '-' then (decNat rest).map (fun p => (Int.negSucc p.1, p.2))
    else none

namespace utils

/-- TokenType defines the type of token (jwt.go). -/
inductive TokenType where
  | access
  | refresh
deriving DecidableEq, Repr

/-- Header signing algorithm of a presented token.  The source accepts only
the HMAC family (`jwt.SigningMethodHMAC`); `other` stands for any non-HMAC
algorithm, including `none`. -/
inductive Alg where
  | HS256
  | other
deriving DecidableEq, Repr

/-- A signed JWT, symbolically: its claim set (jwt.go `Claims`), the header
algorithm, and the key its signature binds to. -/
structure SignedToken where
  userID : String
  type : TokenType
  exp : Int
  iat : Int
  nbf : Int
  alg : Alg
  key : String
deriving DecidableEq, Repr

/-- Claims represents the JWT claims returned by validation (jwt.go). -/
structure Claims where
  userID : String
  type : TokenType
  exp : Int
  iat : Int
  nbf : Int
deriving DecidableEq, Repr

def encTokenType : TokenType → List Char
  | .access => ['a']
  | .refresh => ['r']

def decTokenType : List Char → Option (TokenType × List Char)
  | [] => none
  | c :: rest =>
    if c = 'a' then some (.access, rest)
    else if c = 'r' then some (.refresh, rest)
    else none

def encAlg : Alg → List Char
  | .HS256 => ['h']
  | .other => ['o']

def decAlg : List Char → Option (Alg × List Char)
  | [] => none
  | c :: rest =>
    if c = 'h' then some (.HS256, rest)
    else if c = 'o' then some (.other, rest)
    else none

/-- Model of JWT compact serialization: an injective encoding of the signed
token into a string. -/
def encodeSignedToken (t : SignedToken) : String :=
  String.mk (encStrField t.userID ++ encTokenType t.type ++ encIntField t.exp ++
    encIntField t.iat ++ encIntField t.nbf ++ encAlg t.alg ++ encStrField t.key)

/-- Model of JWT compact parsing: inverse of `encodeSignedToken`, `none` on
strings that are not well-formed tokens. -/
def decodeSignedToken (s : String) : Option SignedToken :=
  (decStrField s.data).bind fun p1 =>
  (decTokenType p1.2).bind fun p2 =>
  (decIntField p2.2).bind fun p3 =>
  (decIntField p3.2).bind fun p4 =>
  (decIntField p4.2).bind fun p5 =>
  (decAlg p5.2).bind fun p6 =>
  (decStrField p6.2).bind fun p7 =>
  if p7.2 = [] then
    some ⟨p1.1, p2.1, p3.1, p4.1, p5.1, p6.1, p7.1⟩
  else none

/-- JWTConfig holds JWT configuration (config, main.go); TTLs in seconds. -/
structure JWTConfig where
  secretKey : String
  accessTokenTTL : Int
  refreshTokenTTL : Int
deriving DecidableEq, Repr

/-- JWTManager handles JWT operations (jwt.go). -/
structure JWTManager where
  config : JWTConfig
deriving DecidableEq, Repr

/-- generateToken generates a new token (jwt.go): claims carry the subject,
the kind, `exp = now + ttl`, `iat = nbf = now`, signed with HS256 under the
manager's secret key.  HMAC signing over a byte-slice key cannot fail, so
the Go `error` result is always nil and is dropped. -/
def generateToken (m : JWTManager) (userID : String) (tokenType : TokenType)
    (ttl : Int) (now : Int) : String :=
  encodeSignedToken
    { userID := userID, type := tokenType, exp := now + ttl, iat := now,
      nbf := now, alg := .HS256, key := m.config.secretKey }

/-- GenerateAccessToken generates a new access token (jwt.go). -/
def GenerateAccessToken (m : JWTManager) (userID : String) (now : Int) : String :=
  generateToken m userID .access m.config.accessTokenTTL now

/-- GenerateRefreshToken generates a new refresh token (jwt.go). -/
def GenerateRefreshToken (m : JWTManager) (userID : String) (now : Int) : String :=
  generateToken m userID .refresh m.config.refreshTokenTTL now

/-- ValidateToken validates a token and returns the claims (jwt.go).
Parses; rejects non-HMAC header algorithms in the keyfunc; signature
verification succeeds iff the signing key equals the manager's secret key;
`jwt/v5` claim validation rejects when `exp ≤ now` (expired) or `now < nbf`
(not valid yet). -/
def ValidateToken (m : JWTManager) (tokenString : String) (now : Int) :
    Except String Claims :=
  match decodeSignedToken tokenString with
  | none => .error "invalid token: token is malformed"
  | some t =>
    if t.alg = Alg.HS256 then
      if t.key = m.config.secretKey then
        if now < t.exp then
          if t.nbf ≤ now then
            .ok ⟨t.userID, t.type, t.exp, t.iat, t.nbf⟩
          else .error "invalid token: token is not valid yet"
        else .error "invalid token: token is expired"
      else .error "invalid token: signature is invalid"
    else .error "invalid token: unexpected signing method"

/-- ValidateAccessToken validates an access token (jwt.go). -/
def ValidateAccessToken (m : JWTManager) (tokenString : String) (now : Int) :
    Except String Claims :=
  match ValidateToken m tokenString now with
  | .error e => .error e
  | .ok claims =>
    if claims.type ≠ TokenType.access then .error "token is not an access token"
    else .ok claims

/-- ValidateRefreshToken validates a refresh token (jwt.go). -/
def ValidateRefreshToken (m : JWTManager) (tokenString : String) (now : Int) :
    Except String Claims :=
  match ValidateToken m tokenString now with
  | .error e => .error e
  | .ok claims =>
    if claims.type ≠ TokenType.refresh then .error "token is not a refresh token"
    else .ok claims

end utils

/-- Whether an `Except` result is a success. -/
def exceptOk {ε α : Type} : Except ε α → Bool
  | .ok _ => true
  | .error _ => false

namespace models

/-- User represents a user in the system (models/user.go).  Times are unix
seconds; the Go zero value `""` marks an absent string field. -/
structure User where
  id : String
  username : String
  password : String
  email : String
  openID : String
  createdAt : Int
  updatedAt : Int
deriving DecidableEq, Repr

/-- Marshalled JSON of a `User` (models/user.go struct tags), as the ordered
field/value list Go emits.  `password` and `open_id` are tagged `omitempty`
and appear iff non-empty; `id`, `username`, `email` and the timestamps are
always present.  Timestamps are rendered through `toString`. -/
def marshalUser (u : User) : List (String × String) :=
  [("id", u.id), ("username", u.username)] ++
  (if u.password = "" then [] else [("password", u.password)]) ++
  [("email", u.email)] ++
  (if u.openID = "" then [] else [("open_id", u.openID)]) ++
  [("created_at", toString u.createdAt), ("updated_at", toString u.updatedAt)]

end models

/-- A value stored in Redis: either a plain string (indexes and the
revocation ledger) or a marshalled `User` JSON document (the model keeps the
document structured; marshal/unmarshal round-trip exactly). -/
inductive RVal where
  | str (s : String)
  | user (u : models.User)
deriving DecidableEq, Repr

/-- A Redis entry: the stored value and the TTL (seconds) it was set with;
`0` means no expiry, matching `redis.Set(..., 0)`. -/
structure RedisEntry where
  value : RVal
  ttl : Int
deriving DecidableEq, Repr

/-- The external Redis store: an association list from keys to entries. -/
abbrev RedisStore := List (String × RedisEntry)

/-- `SET key value ttl`: overwrites any existing entry for the key. -/
def redisSet (st : RedisStore) (k : String) (v : RVal) (ttl : Int) : RedisStore :=
  (k, ⟨v, ttl⟩) :: st.filter (fun p => p.1 ≠ k)

/-- `GET key`: the stored entry, or `none` (`redis.Nil`). -/
def redisGet (st : RedisStore) (k : String) : Option RedisEntry :=
  (st.find? (fun p => p.1 = k)).map (fun p => p.2)

/-- `DEL key`: unconditional delete; removing an absent key is a no-op. -/
def redisDel (st : RedisStore) (k : String) : RedisStore :=
  st.filter (fun p => p.1 ≠ k)

namespace models

/-- Create stores a new user in Redis (models/user.go): stamps the
timestamps, writes the `user:<id>` document and the `username:<name>`
secondary index, both without expiry. -/
def UserStore.Create (st : RedisStore) (user : User) (now : Int) :
    Except String RedisStore :=
  if user.id = "" then .error "user ID cannot be empty"
  else
    let u := { user with createdAt := now, updatedAt := now }
    let st1 := redisSet st ("user:" ++ u.id) (.user u) 0
    let st2 := redisSet st1 ("username:" ++ u.username) (.str u.id) 0
    .ok st2

/-- GetByID retrieves a user by ID (models/user.go).  A stored value that is
not a user document fails to unmarshal. -/
def UserStore.GetByID (st : RedisStore) (id : String) : Except String User :=
  match redisGet st ("user:" ++ id) with
  | none => .error "user not found"
  | some e =>
    match e.value with
    | .user u => .ok u
    | .str _ => .error "failed to unmarshal user"

/-- GetByUsername retrieves a user by username (models/user.go): resolves the
`username:<name>` index to an id, then `GetByID`.  (An index slot holding a
user document would be read as a JSON string id missing the `user:`
namespace, hence not found.) -/
def UserStore.GetByUsername (st : RedisStore) (username : String) :
    Except String User :=
  match redisGet st ("username:" ++ username) with
  | none => .error "user not found"
  | some e =>
    match e.value with
    | .str id => UserStore.GetByID st id
    | .user _ => .error "user not found"

/-- CreateWeChatUser creates a new user with WeChat OpenID (models/user.go):
find-or-create keyed by the `openid:<openID>` index.  When absent, creates a
user with id `wx_<openID>` (used as username too, no password) and writes the
document, the username index and the openid index. -/
def UserStore.CreateWeChatUser (st : RedisStore) (openID : String) (now : Int) :
    Except String (User × RedisStore) :=
  if openID = "" then .error "OpenID cannot be empty"
  else
    match redisGet st ("openid:" ++ openID) with
    | some e =>
      match e.value with
      | .str id => (UserStore.GetByID st id).map (fun u => (u, st))
      | .user _ => .error "user not found"
    | none =>
      let id := "wx_" ++ openID
      let user : User :=
        { id := id, username := id, password := "", email := "", openID := openID,
          createdAt := now, updatedAt := now }
      let st1 := redisSet st ("user:" ++ id) (.user user) 0
      let st2 := redisSet st1 ("username:" ++ id) (.str id) 0
      let st3 := redisSet st2 ("openid:" ++ openID) (.str id) 0
      .ok (user, st3)

end models

/-- Modelled from the spec: the Credential Verifier collaborator
(`golang.org/x/crypto/bcrypt`), whose Go source is outside this repository.
`GenerateFromPassword` is deterministic here (real bcrypt salts; no claim
depends on salt randomness), and `CompareHashAndPassword` succeeds exactly
when the hash was generated from the password. -/
def bcryptGenerateFromPassword (password : String) : String :=
  "bcrypt$" ++ password

/-- Modelled from the spec: bcrypt comparison, the authority boundary for
password correctness. -/
def bcryptCompareHashAndPassword (hash password : String) : Bool :=
  hash = bcryptGenerateFromPassword password

/-- An HTTP JSON response body, by shape. -/
inductive Body where
  | err (msg : String)
  | msg (m : String)
  | registered (message userId : String)
  | tokens (accessToken refreshToken : String) (expiresIn : Int)
  | refreshed (accessToken : String) (expiresIn : Int)
  | userJson (fields : List (String × String))
deriving DecidableEq, Repr

/-- An HTTP response: status code and JSON body. -/
structure HResp where
  status : Nat
  body : Body
deriving DecidableEq, Repr

/-- Split a string at every single space, model of Go `strings.Split(s, " ")`
(empty segments preserved; `""` yields `[""]`). -/
def splitSpaceAux : List Char → List Char → List String
  | [], acc => [String.mk acc.reverse]
  | c :: rest, acc =>
    if c = ' ' then String.mk acc.reverse :: splitSpaceAux rest []
    else splitSpaceAux rest (c :: acc)

/-- Split a string at every single space. -/
def splitSpace (s : String) : List String := splitSpaceAux s.data []

namespace middleware

/-- AuthRequired (middleware/auth.go): reads the `Authorization` header
(`""` when absent), requires the exact `Bearer <token>` shape, validates the
token as an access token, and on success yields the principal (the claims'
user id); on any failure aborts with the 401 response. -/
def AuthRequired (m : utils.JWTManager) (authHeader : String) (now : Int) :
    Except HResp String :=
  if authHeader = "" then
    .error ⟨401, .err "Authorization header is required"⟩
  else
    match splitSpace authHeader with
    | [p0, p1] =>
      if p0 = "Bearer" then
        match utils.ValidateAccessToken m p1 now with
        | .error _ => .error ⟨401, .err "Invalid or expired token"⟩
        | .ok claims => .ok claims.userID
      else .error ⟨401, .err "Authorization header format must be Bearer \x7btoken\x7d"⟩
    | _ => .error ⟨401, .err "Authorization header format must be Bearer \x7btoken\x7d"⟩

/-- A protected route: the middleware runs first; only when it succeeds is
the protected handler invoked, with the principal injected. -/
def protectedRoute (m : utils.JWTManager)
    (handler : String → RedisStore → HResp × RedisStore)
    (st : RedisStore) (authHeader : String) (now : Int) : HResp × RedisStore :=
  match AuthRequired m authHeader now with
  | .error resp => (resp, st)
  | .ok userID => handler userID st

end middleware

namespace handlers

/-- RegisterRequest (handlers): username 3..30 chars, password at least 6,
email required and well-formed. -/
structure RegisterRequest where
  username : String
  password : String
  email : String
deriving DecidableEq, Repr

/-- LoginRequest (handlers): both fields required. -/
structure LoginRequest where
  username : String
  password : String
deriving DecidableEq, Repr

/-- RefreshRequest (handlers): the refresh token, required. -/
structure RefreshRequest where
  refreshToken : String
deriving DecidableEq, Repr

/-- WeChatLoginRequest (handlers): the one-time code, required. -/
structure WeChatLoginRequest where
  code : String
deriving DecidableEq, Repr

/-- Binding outcome of `ShouldBindJSON` for `RegisterRequest` (gin tags
`required,min=3,max=30` / `required,min=6` / `required,email`; the email
validator is abstracted as containing an at-sign). -/
def bindRegisterRequest (req : RegisterRequest) : Bool :=
  3 ≤ req.username.length && req.username.length ≤ 30 &&
    6 ≤ req.password.length && req.email.data.contains '@'

/-- Register handles user registration (handlers): 400 on binding failure,
409 when the username already resolves, otherwise hash the password, store
the user with the username itself as its id, and answer 201 with the id. -/
def Register (st : RedisStore) (req : RegisterRequest) (now : Int) :
    HResp × RedisStore :=
  if ¬ bindRegisterRequest req then (⟨400, .err "invalid request body"⟩, st)
  else
    match models.UserStore.GetByUsername st req.username with
    | .ok _ => (⟨409, .err "username already exists"⟩, st)
    | .error _ =>
      let hashedPassword := bcryptGenerateFromPassword req.password
      let user : models.User :=
        { id := req.username, username := req.username,
          password := hashedPassword, email := req.email, openID := "",
          createdAt := 0, updatedAt := 0 }
      match models.UserStore.Create st user now with
      | .error _ => (⟨500, .err "failed to create user"⟩, st)
      | .ok st2 => (⟨201, .registered "user registered successfully" user.id⟩, st2)

/-- Login handles user login (handlers): a username that does not resolve
and a password that does not match produce the same generic 401; on success
mints both tokens, records the refresh token in the ledger under
`refresh_token:<token>` with a hardcoded 7-day TTL, and answers with a
hardcoded `expires_in` of 15 minutes in seconds. -/
def Login (m : utils.JWTManager) (st : RedisStore) (req : LoginRequest)
    (now : Int) : HResp × RedisStore :=
  if req.username = "" ∨ req.password = "" then
    (⟨400, .err "invalid request body"⟩, st)
  else
    match models.UserStore.GetByUsername st req.username with
    | .error _ => (⟨401, .err "invalid username or password"⟩, st)
    | .ok user =>
      if ¬ bcryptCompareHashAndPassword user.password req.password then
        (⟨401, .err "invalid username or password"⟩, st)
      else
        let accessToken := utils.GenerateAccessToken m user.id now
        let refreshToken := utils.GenerateRefreshToken m user.id now
        let refreshTokenKey := "refresh_token:" ++ refreshToken
        let st2 := redisSet st refreshTokenKey (.str user.id) (7*24*3600)
        (⟨200, .tokens accessToken refreshToken (15*60)⟩, st2)

/-- RefreshToken handles token refresh (handlers): validate the presented
token with kind refresh, look its ledger key up, require the stored owner to
equal the claimed subject, and only then mint a new access token (the
refresh token is not rotated). -/
def RefreshToken (m : utils.JWTManager) (st : RedisStore) (req : RefreshRequest)
    (now : Int) : HResp × RedisStore :=
  if req.refreshToken = "" then (⟨400, .err "invalid request body"⟩, st)
  else
    match utils.ValidateRefreshToken m req.refreshToken now with
    | .error _ => (⟨401, .err "invalid refresh token"⟩, st)
    | .ok claims =>
      match redisGet st ("refresh_token:" ++ req.refreshToken) with
      | none => (⟨401, .err "refresh token has been revoked"⟩, st)
      | some e =>
        if e.value ≠ RVal.str claims.userID then
          (⟨401, .err "invalid refresh token"⟩, st)
        else
          let accessToken := utils.GenerateAccessToken m claims.userID now
          (⟨200, .refreshed accessToken (15*60)⟩, st)

/-- Logout handles user logout (handlers): deletes the ledger key built from
the presented string without any validation and reports success. -/
def Logout (st : RedisStore) (req : RefreshRequest) : HResp × RedisStore :=
  if req.refreshToken = "" then (⟨400, .err "invalid request body"⟩, st)
  else
    let refreshTokenKey := "refresh_token:" ++ req.refreshToken
    (⟨200, .msg "logged out successfully"⟩, redisDel st refreshTokenKey)

/-- Me returns the current user (handlers): 401 when no principal was
injected, 500 when the principal's record cannot be fetched, otherwise 200
with the marshalled user record. -/
def Me (st : RedisStore) (userID : Option String) : HResp :=
  match userID with
  | none => ⟨401, .err "not authenticated"⟩
  | some uid =>
    match models.UserStore.GetByID st uid with
    | .error _ => ⟨500, .err "failed to get user"⟩
    | .ok user => ⟨200, .userJson (models.marshalUser user)⟩

/-- GET /me as routed in main.go: `AuthRequired` then `Me` with the injected
principal. -/
def MeRoute (m : utils.JWTManager) (st : RedisStore) (authHeader : String)
    (now : Int) : HResp × RedisStore :=
  middleware.protectedRoute m (fun uid s => (Me s (some uid), s)) st authHeader now

/-- WeChatLogin handles WeChat Mini Program login (handlers).  The one-time
code exchange (`utils.WeChatManager.Code2Session`, network I/O against the
WeChat API) is passed in as the function `code2session` yielding the
resolved OpenID; 500 when the exchange or find-or-create fails; otherwise
the token-issuance tail is identical to `Login`. -/
def WeChatLogin (m : utils.JWTManager)
    (code2session : String → Except String String) (st : RedisStore)
    (req : WeChatLoginRequest) (now : Int) : HResp × RedisStore :=
  if req.code = "" then (⟨400, .err "invalid request body"⟩, st)
  else
    match code2session req.code with
    | .error e => (⟨500, .err ("failed to exchange code: " ++ e)⟩, st)
    | .ok openID =>
      match models.UserStore.CreateWeChatUser st openID now with
      | .error e => (⟨500, .err ("failed to create user: " ++ e)⟩, st)
      | .ok (user, st1) =>
        let accessToken := utils.GenerateAccessToken m user.id now
        let refreshToken := utils.GenerateRefreshToken m user.id now
        let refreshTokenKey := "refresh_token:" ++ refreshToken
        let st2 := redisSet st1 refreshTokenKey (.str user.id) (7*24*3600)
        (⟨200, .tokens accessToken refreshToken (15*60)⟩, st2)

end handlers

/-! ## Concrete fixtures for the closed instances below -/

/-- A manager with the design-default TTLs (15 min / 7 days, in seconds). -/
def mgrDefault : utils.JWTManager := ⟨⟨"k", 15*60, 7*24*3600⟩⟩

/-- A manager whose configured TTLs (1 s access, 2 s refresh) differ from the
handler-hardcoded constants. -/
def mgrTiny : utils.JWTManager := ⟨⟨"k", 1, 2⟩⟩

/-- Store holding exactly the user produced by registering alice. -/
def stAlice : RedisStore :=
  (handlers.Register [] ⟨"alice", "secret1", "a@x.com"⟩ 0).2

/-- A code-exchange collaborator resolving the two distinct codes c1 and c2
to the same OpenID. -/
def code2sessionW (code : String) : Except String String :=
  if code = "c1" ∨ code = "c2" then .ok "oid" else .error "invalid code"

/-- A live refresh token for alice under the tiny-TTL manager. -/
def rtTiny : String := utils.GenerateRefreshToken mgrTiny "alice" 0

/-- A ledger holding exactly the live entry for `rtTiny`, owned by alice. -/
def stLedger : RedisStore := [("refresh_token:" ++ rtTiny, ⟨RVal.str "alice", 604800⟩)]

/-! ## Serialization round-trip -/

theorem data_mk (l : List Char) : (String.mk l).data = l := rfl

theorem data_append (s t : String) : (s ++ t).data = s.data ++ t.data := by
  cases s; cases t; rfl

theorem decNat_encNat (n : Nat) (r : List Char) :
    decNat (encNat n ++ r) = some (n, r) := by
  induction n with
  | zero => simp [encNat, decNat]
  | succ k ih => simp [encNat, decNat, ih]

theorem decStrField_encStrField (s : String) (r : List Char) :
    decStrField (encStrField s ++ r) = some (s, r) := by
  cases s with
  | mk data =>
    simp [encStrField, decStrField, List.append_assoc, decNat_encNat,
      List.take_left, List.drop_left]

theorem decStrField_encStrField_nil (s : String) :
    decStrField (encStrField s) = some (s, []) := by
  have h := decStrField_encStrField s []
  simpa using h

theorem decIntField_encIntField (i : Int) (r : List Char) :
    decIntField (encIntField i ++ r) = some (i, r) := by
  cases i <;> simp [encIntField, decIntField, decNat_encNat]

theorem decTokenType_encTokenType (ty : utils.TokenType) (r : List Char) :
    utils.decTokenType (utils.encTokenType ty ++ r) = some (ty, r) := by
  cases ty <;> simp [utils.encTokenType, utils.decTokenType]

theorem decAlg_encAlg (a : utils.Alg) (r : List Char) :
    utils.decAlg (utils.encAlg a ++ r) = some (a, r) := by
  cases a <;> simp [utils.encAlg, utils.decAlg]

theorem decodeSignedToken_encodeSignedToken (t : utils.SignedToken) :
    utils.decodeSignedToken (utils.encodeSignedToken t) = some t := by
  cases t
  simp [utils.encodeSignedToken, utils.decodeSignedToken, data_mk,
    List.append_assoc, decStrField_encStrField, decTokenType_encTokenType,
    decIntField_encIntField, decAlg_encAlg, decStrField_encStrField_nil]

/-! ## Redis store lemmas -/

theorem find?_filter_keyNe (st : RedisStore) (k k' : String) (h : k' ≠ k) :
    (st.filter (fun p => p.1 ≠ k)).find? (fun p => p.1 = k')
      = st.find? (fun p => p.1 = k') := by
  rw [List.find?_filter]
  congr 1
  funext a
  by_cases ha : a.1 = k'
  · have hak : ¬ a.1 = k := fun hh => h (by rw [← ha, hh])
    simp [ha, hak, h]
  · simp [ha]

theorem redisGet_redisSet_self (st : RedisStore) (k : String) (v : RVal) (ttl : Int) :
    redisGet (redisSet st k v ttl) k = some ⟨v, ttl⟩ := by
  simp [redisGet, redisSet, List.find?_cons]

theorem redisGet_redisSet_ne (st : RedisStore) (k k' : String) (v : RVal) (ttl : Int)
    (h : k' ≠ k) : redisGet (redisSet st k v ttl) k' = redisGet st k' := by
  unfold redisGet redisSet
  rw [List.find?_cons_of_neg _ (by simp [Ne.symm h]), find?_filter_keyNe st k k' h]

theorem redisGet_redisDel_self (st : RedisStore) (k : String) :
    redisGet (redisDel st k) k = none := by
  induction st with
  | nil => rfl
  | cons hd tl ih =>
    by_cases hk : hd.1 = k
    · simp [redisGet, redisDel, List.filter_cons, hk]
    · simp [redisGet, redisDel, List.filter_cons, List.find?_cons, hk]

theorem redisGet_redisDel_ne (st : RedisStore) (k k' : String) (h : k' ≠ k) :
    redisGet (redisDel st k) k' = redisGet st k' := by
  unfold redisGet redisDel
  rw [find?_filter_keyNe st k k' h]

/-! ## Key-namespace separation -/

theorem append_ne_append_of_getElem (p q a b : String) (n : Nat)
    (h1 : n < p.data.length) (h2 : n < q.data.length)
    (hne : p.data[n]? ≠ q.data[n]?) : p ++ a ≠ q ++ b := by
  intro h
  have h3 : (p ++ a).data[n]? = (q ++ b).data[n]? := by rw [h]
  rw [data_append, data_append] at h3
  rw [List.getElem?_append, if_pos h1] at h3
  rw [List.getElem?_append, if_pos h2] at h3
  exact hne h3

theorem userKey_ne_usernameKey (a b : String) : "user:" ++ a ≠ "username:" ++ b :=
  append_ne_append_of_getElem _ _ _ _ 4 (by decide) (by decide) (by decide)

theorem userKey_ne_openidKey (a b : String) : "user:" ++ a ≠ "openid:" ++ b :=
  append_ne_append_of_getElem _ _ _ _ 0 (by decide) (by decide) (by decide)

theorem usernameKey_ne_openidKey (a b : String) : "username:" ++ a ≠ "openid:" ++ b :=
  append_ne_append_of_getElem _ _ _ _ 0 (by decide) (by decide) (by decide)

theorem refreshKey_ne_userKey (a b : String) : "refresh_token:" ++ a ≠ "user:" ++ b :=
  append_ne_append_of_getElem _ _ _ _ 0 (by decide) (by decide) (by decide)

theorem refreshKey_ne_usernameKey (a b : String) :
    "refresh_token:" ++ a ≠ "username:" ++ b :=
  append_ne_append_of_getElem _ _ _ _ 0 (by decide) (by decide) (by decide)

theorem refreshKey_ne_openidKey (a b : String) : "refresh_token:" ++ a ≠ "openid:" ++ b :=
  append_ne_append_of_getElem _ _ _ _ 0 (by decide) (by decide) (by decide)

/-! ## Behaviour of validation on freshly issued tokens -/

theorem validateToken_generateToken (m : utils.JWTManager) (uid : String)
    (ty : utils.TokenType) (ttl now t : Int) :
    utils.ValidateToken m (utils.generateToken m uid ty ttl now) t =
      if t < now + ttl then
        if now ≤ t then .ok ⟨uid, ty, now + ttl, now, now⟩
        else .error "invalid token: token is not valid yet"
      else .error "invalid token: token is expired" := by
  unfold utils.generateToken utils.ValidateToken
  rw [decodeSignedToken_encodeSignedToken]
  simp

/-! ## C3: kind isolation -/

/-- C3: for every token issued with kind access, validating it with expected
kind refresh fails, and for every token issued with kind refresh, validating
it with expected kind access fails — at every validation time, so in
particular even when the signature is valid and the token is unexpired. -/
theorem kind_isolation (m : utils.JWTManager) (uid : String) (now t : Int) :
    exceptOk (utils.ValidateRefreshToken m (utils.GenerateAccessToken m uid now) t) = false ∧
    exceptOk (utils.ValidateAccessToken m (utils.GenerateRefreshToken m uid now) t) = false := by
  constructor
  · unfold utils.ValidateRefreshToken utils.GenerateAccessToken
    rw [validateToken_generateToken]
    by_cases h1 : t < now + m.config.accessTokenTTL
    · by_cases h2 : now ≤ t
      · simp [h1, h2, exceptOk, utils.TokenType.refresh.sizeOf_spec]
      · simp [h1, h2, exceptOk]
    · simp [h1, exceptOk]
  · unfold utils.ValidateAccessToken utils.GenerateRefreshToken
    rw [validateToken_generateToken]
    by_cases h1 : t < now + m.config.refreshTokenTTL
    · by_cases h2 : now ≤ t
      · simp [h1, h2, exceptOk]
      · simp [h1, h2, exceptOk]
    · simp [h1, exceptOk]

/-! ## C4: issue/validate round-trip -/

/-- C4: validating, under the same manager (same signing key), the access
token issued for identity uid at time now, at any time t inside the token's
validity window, succeeds and returns claims with subject uid and kind
access. -/
theorem validate_issue_roundtrip (m : utils.JWTManager) (uid : String) (now t : Int)
    (h1 : now ≤ t) (h2 : t < now + m.config.accessTokenTTL) :
    utils.ValidateAccessToken m (utils.GenerateAccessToken m uid now) t =
      .ok ⟨uid, .access, now + m.config.accessTokenTTL, now, now⟩ := by
  unfold utils.ValidateAccessToken utils.GenerateAccessToken
  rw [validateToken_generateToken, if_pos h2, if_pos h1]
  simp

/-- Witness for C4 at a concrete identity, manager and instant. -/
theorem validate_issue_roundtrip_witness :
    (0 : Int) ≤ 1 ∧ (1 : Int) < 0 + mgrDefault.config.accessTokenTTL ∧
    utils.ValidateAccessToken mgrDefault (utils.GenerateAccessToken mgrDefault "alice" 0) 1 =
      .ok ⟨"alice", .access, 0 + mgrDefault.config.accessTokenTTL, 0, 0⟩ :=
  ⟨by decide, by decide, validate_issue_roundtrip mgrDefault "alice" 0 1 (by decide) (by decide)⟩

/-! ## C1: refresh usable iff signature valid, ledger-live, and owner matches -/

/-- C1: for every presented refresh token (one that bound from the request,
hence non-empty), Refresh returns a new access token iff (a) the token
validates with kind refresh, (b) a ledger entry keyed by the token's exact
value exists, and (c) that entry's stored identity equals the claimed
subject; when any of (a)-(c) fails it answers 401 with an error body, issues
no token, and leaves the store unchanged. -/
theorem refresh_usable_iff_valid_live_owned (m : utils.JWTManager) (st : RedisStore)
    (req : handlers.RefreshRequest) (now : Int) (hbind : req.refreshToken ≠ "") :
    ((∃ atk ei, (handlers.RefreshToken m st req now).1 = ⟨200, Body.refreshed atk ei⟩) ↔
      (∃ c e, utils.ValidateRefreshToken m req.refreshToken now = Except.ok c ∧
        redisGet st ("refresh_token:" ++ req.refreshToken) = some e ∧
        e.value = RVal.str c.userID)) ∧
    ((¬ ∃ c e, utils.ValidateRefreshToken m req.refreshToken now = Except.ok c ∧
        redisGet st ("refresh_token:" ++ req.refreshToken) = some e ∧
        e.value = RVal.str c.userID) →
      ∃ msg, handlers.RefreshToken m st req now = (⟨401, Body.err msg⟩, st)) := by
  unfold handlers.RefreshToken
  cases hv : utils.ValidateRefreshToken m req.refreshToken now with
  | error err =>
    simp only [if_neg hbind, hv]
    constructor
    · constructor
      · rintro ⟨atk, ei, h⟩
        simp at h
      · rintro ⟨c, e, hc, -, -⟩
        cases hc
    · intro _
      exact ⟨"invalid refresh token", rfl⟩
  | ok claims =>
    cases hg : redisGet st ("refresh_token:" ++ req.refreshToken) with
    | none =>
      simp only [if_neg hbind, hv, hg]
      constructor
      · constructor
        · rintro ⟨atk, ei, h⟩
          simp at h
        · rintro ⟨c, e, -, he, -⟩
          cases he
      · intro _
        exact ⟨"refresh token has been revoked", rfl⟩
    | some entry =>
      by_cases hev : entry.value = RVal.str claims.userID
      · simp only [if_neg hbind, hv, hg, if_neg (not_not_intro hev)]
        constructor
        · constructor
          · intro _
            exact ⟨claims, entry, rfl, rfl, hev⟩
          · intro _
            exact ⟨_, _, rfl⟩
        · intro hn
          exact absurd ⟨claims, entry, rfl, rfl, hev⟩ hn
      · simp only [if_neg hbind, hv, hg, if_pos hev]
        constructor
        · constructor
          · rintro ⟨atk, ei, h⟩
            simp at h
          · rintro ⟨c, e, hc, he, hveq⟩
            injection hc with hc1
            injection he with he1
            subst hc1
            subst he1
            exact absurd hveq hev
        · intro _
          exact ⟨"invalid refresh token", rfl⟩

/-- Witness for C1: a live, owned, valid refresh token is accepted. -/
theorem refresh_usable_iff_valid_live_owned_witness :
    rtTiny ≠ "" ∧
    (∃ atk ei, (handlers.RefreshToken mgrTiny stLedger ⟨rtTiny⟩ 1).1 =
      ⟨200, Body.refreshed atk ei⟩) :=
  ⟨by decide,
   (refresh_usable_iff_valid_live_owned mgrTiny stLedger ⟨rtTiny⟩ 1 (by decide)).1.mpr
     ⟨⟨"alice", .refresh, 2, 0, 0⟩, ⟨RVal.str "alice", 604800⟩,
      rfl, by decide, rfl⟩⟩

/-! ## C5: login failures indistinguishable -/

/-- C5: a login attempt with an existing username but non-matching password
and a login attempt with a username that does not resolve produce identical
outcomes — the same 401 status, the same generic error message, and an
unchanged store — revealing nothing about whether the username exists. -/
theorem login_failures_indistinguishable (m : utils.JWTManager) (st : RedisStore)
    (u1 p1 u2 p2 : String) (now1 now2 : Int)
    (hu1 : u1 ≠ "") (hp1 : p1 ≠ "") (hu2 : u2 ≠ "") (hp2 : p2 ≠ "")
    (hexists : ∃ user, models.UserStore.GetByUsername st u1 = .ok user ∧
      bcryptCompareHashAndPassword user.password p1 = false)
    (hmissing : ∃ e, models.UserStore.GetByUsername st u2 = .error e) :
    handlers.Login m st ⟨u1, p1⟩ now1 = handlers.Login m st ⟨u2, p2⟩ now2 ∧
    handlers.Login m st ⟨u1, p1⟩ now1 =
      (⟨401, Body.err "invalid username or password"⟩, st) := by
  obtain ⟨user, hg, hb⟩ := hexists
  obtain ⟨e, he⟩ := hmissing
  unfold handlers.Login
  simp only [hg, he, hb]
  simp [hu1, hp1, hu2, hp2]

/-- Witness for C5: alice with a wrong password versus the absent bob. -/
theorem login_failures_indistinguishable_witness :
    models.UserStore.GetByUsername stAlice "alice" =
      .ok ⟨"alice", "alice", "bcrypt$secret1", "a@x.com", "", 0, 0⟩ ∧
    bcryptCompareHashAndPassword "bcrypt$secret1" "wrong" = false ∧
    handlers.Login mgrTiny stAlice ⟨"alice", "wrong"⟩ 0 =
      handlers.Login mgrTiny stAlice ⟨"bob", "whatever"⟩ 0 ∧
    handlers.Login mgrTiny stAlice ⟨"alice", "wrong"⟩ 0 =
      (⟨401, Body.err "invalid username or password"⟩, stAlice) :=
  ⟨rfl, by decide,
   (login_failures_indistinguishable mgrTiny stAlice "alice" "wrong" "bob" "whatever" 0 0
     (by decide) (by decide) (by decide) (by decide)
     ⟨⟨"alice", "alice", "bcrypt$secret1", "a@x.com", "", 0, 0⟩, rfl, by decide⟩
     ⟨"user not found", rfl⟩).1,
   (login_failures_indistinguishable mgrTiny stAlice "alice" "wrong" "bob" "whatever" 0 0
     (by decide) (by decide) (by decide) (by decide)
     ⟨⟨"alice", "alice", "bcrypt$secret1", "a@x.com", "", 0, 0⟩, rfl, by decide⟩
     ⟨"user not found", rfl⟩).2⟩

/-! ## C6: inbound authentication rejects uniformly with 401 -/

theorem authRequired_error_status (m : utils.JWTManager) (a : String) (now : Int)
    (r : HResp) (h : middleware.AuthRequired m a now = .error r) : r.status = 401 := by
  unfold middleware.AuthRequired at h
  split at h
  · injection h with h'
    subst h'
    rfl
  · split at h
    · split at h
      · split at h
        · injection h with h'
          subst h'
          rfl
        · cases h
      · injection h with h'
        subst h'
        rfl
    · injection h with h'
      subst h'
      rfl

/-- C6: whenever inbound authentication of a protected route fails — for
every failure sub-reason without distinction (missing header, malformed
header, malformed or badly signed token, expired or not-yet-valid token,
wrong kind) — the middleware answers with status 401, and the protected
handler is never reached: the outcome is identical whatever handler is
protected, and the store is untouched. -/
theorem protected_route_uniform_unauthorized (m : utils.JWTManager)
    (authHeader : String) (now : Int) (st : RedisStore) (r : HResp)
    (handler1 handler2 : String → RedisStore → HResp × RedisStore)
    (hfail : middleware.AuthRequired m authHeader now = .error r) :
    r.status = 401 ∧
    middleware.protectedRoute m handler1 st authHeader now = (r, st) ∧
    middleware.protectedRoute m handler2 st authHeader now = (r, st) := by
  refine ⟨authRequired_error_status m authHeader now r hfail, ?_, ?_⟩ <;>
    simp [middleware.protectedRoute, hfail]

/-- Witness for C6 at a concrete failing header (missing). -/
theorem protected_route_uniform_unauthorized_witness :
    middleware.AuthRequired mgrTiny "" 0 =
      .error ⟨401, Body.err "Authorization header is required"⟩ ∧
    (⟨401, Body.err "Authorization header is required"⟩ : HResp).status = 401 ∧
    middleware.protectedRoute mgrTiny (fun uid s => (⟨200, Body.msg uid⟩, s)) [] "" 0 =
      (⟨401, Body.err "Authorization header is required"⟩, []) :=
  ⟨rfl,
   (protected_route_uniform_unauthorized mgrTiny "" 0 []
     ⟨401, Body.err "Authorization header is required"⟩
     (fun uid s => (⟨200, Body.msg uid⟩, s))
     (fun _ s => (⟨200, Body.msg "other"⟩, s)) rfl).1,
   (protected_route_uniform_unauthorized mgrTiny "" 0 []
     ⟨401, Body.err "Authorization header is required"⟩
     (fun uid s => (⟨200, Body.msg uid⟩, s))
     (fun _ s => (⟨200, Body.msg "other"⟩, s)) rfl).2.1⟩

/-! ## C7: logout unconditional and idempotent (corrected at the empty string) -/

/-- C7 counterexample: the claim quantifies over every presented string, but
the empty string fails request binding (`binding:"required"` rejects the
zero value): Logout answers 400, reports no success, and does not delete the
exact ledger key derived from the empty token. -/
theorem logout_rejects_empty_string :
    (handlers.Logout [("refresh_token:", ⟨RVal.str "alice", 604800⟩)] ⟨""⟩).1.status = 400 ∧
    (handlers.Logout [("refresh_token:", ⟨RVal.str "alice", 604800⟩)] ⟨""⟩).2 =
      [("refresh_token:", ⟨RVal.str "alice", 604800⟩)] := by
  exact ⟨rfl, rfl⟩

/-- C7 amended: for every non-empty string presented as a refresh token
(valid, already revoked, or never issued), Logout deletes the corresponding
ledger key without validating the token's signature or kind and reports 200
success, and a second Logout of the same string also reports 200 — the
store being pure, the only failures in the source are external store errors,
which the model excludes. -/
theorem logout_idempotent_unconditional (st : RedisStore) (t : String)
    (h : t ≠ "") :
    handlers.Logout st ⟨t⟩ =
      (⟨200, Body.msg "logged out successfully"⟩, redisDel st ("refresh_token:" ++ t)) ∧
    redisGet (handlers.Logout st ⟨t⟩).2 ("refresh_token:" ++ t) = none ∧
    (handlers.Logout (handlers.Logout st ⟨t⟩).2 ⟨t⟩).1 =
      ⟨200, Body.msg "logged out successfully"⟩ := by
  unfold handlers.Logout
  simp [h, redisGet_redisDel_self]

/-- Witness for C7 (amended) on a string that was never a valid token. -/
theorem logout_idempotent_unconditional_witness :
    ("garbage" : String) ≠ "" ∧
    handlers.Logout [("refresh_token:garbage", ⟨RVal.str "alice", 604800⟩)] ⟨"garbage"⟩ =
      (⟨200, Body.msg "logged out successfully"⟩,
       redisDel [("refresh_token:garbage", ⟨RVal.str "alice", 604800⟩)]
         ("refresh_token:" ++ "garbage")) :=
  ⟨by decide,
   (logout_idempotent_unconditional
     [("refresh_token:garbage", ⟨RVal.str "alice", 604800⟩)] "garbage" (by decide)).1⟩

/-! ## C10: the registered identity's primary id is the username -/

/-- C10: whenever registration succeeds with 201, the response's user_id is
the submitted username verbatim, and the identity stored under that username
as primary id has both id and username equal to it — the primary-id and
username namespaces coincide for password-based identities. -/
theorem register_primary_id_is_username (st : RedisStore)
    (req : handlers.RegisterRequest) (now : Int)
    (h : (handlers.Register st req now).1.status = 201) :
    (handlers.Register st req now).1.body =
      Body.registered "user registered successfully" req.username ∧
    ∃ u, models.UserStore.GetByID (handlers.Register st req now).2 req.username = .ok u ∧
      u.id = req.username ∧ u.username = req.username := by
  by_cases hb : handlers.bindRegisterRequest req
  · cases hgu : models.UserStore.GetByUsername st req.username with
    | ok u0 =>
      exfalso
      unfold handlers.Register at h
      simp [hb, hgu] at h
    | error e =>
      by_cases hid : req.username = ""
      · exfalso
        rw [hid] at hgu
        unfold handlers.Register models.UserStore.Create at h
        simp [hb, hgu, hid] at h
      · have hres : handlers.Register st req now =
            (⟨201, Body.registered "user registered successfully" req.username⟩,
             redisSet (redisSet st ("user:" ++ req.username)
                 (RVal.user ⟨req.username, req.username,
                   bcryptGenerateFromPassword req.password, req.email, "", now, now⟩) 0)
               ("username:" ++ req.username) (RVal.str req.username) 0) := by
          unfold handlers.Register models.UserStore.Create
          simp [hb, hgu, hid]
        rw [hres]
        refine ⟨rfl, ⟨req.username, req.username,
          bcryptGenerateFromPassword req.password, req.email, "", now, now⟩,
          ?_, rfl, rfl⟩
        unfold models.UserStore.GetByID
        rw [redisGet_redisSet_ne _ _ _ _ _
            (userKey_ne_usernameKey req.username req.username),
          redisGet_redisSet_self]
  · exfalso
    unfold handlers.Register at h
    simp [hb] at h

/-- Witness for C10: registering alice yields user_id alice. -/
theorem register_primary_id_is_username_witness :
    (handlers.Register [] ⟨"alice", "secret1", "a@x.com"⟩ 0).1.status = 201 ∧
    ((handlers.Register [] ⟨"alice", "secret1", "a@x.com"⟩ 0).1.body =
      Body.registered "user registered successfully" "alice" ∧
     ∃ u, models.UserStore.GetByID
        (handlers.Register [] ⟨"alice", "secret1", "a@x.com"⟩ 0).2 "alice" = .ok u ∧
      u.id = "alice" ∧ u.username = "alice") :=
  ⟨by decide,
   register_primary_id_is_username [] ⟨"alice", "secret1", "a@x.com"⟩ 0 (by decide)⟩

/-! ## C2: GET /me — the password hash is NOT omitted (code bug) -/

/-- C2 (code-bug demonstration): the claim and the source's own comment say
the password is omitted from the 200 body of GET /me, but the Go struct tag
is `omitempty`, which omits only empty strings — an authenticated GET /me
for the registered user alice answers 200 with the stored bcrypt hash
present under the password field.  Moreover a failure of GET /me whose
principal authenticates but whose record is missing from the store answers
500, not 401 as the claim states. -/
theorem me_response_contains_password_hash :
    ((handlers.MeRoute mgrTiny stAlice
        ("Bearer " ++ utils.GenerateAccessToken mgrTiny "alice" 0) 0).1 =
      ⟨200, Body.userJson
        [("id", "alice"), ("username", "alice"), ("password", "bcrypt$secret1"),
         ("email", "a@x.com"), ("created_at", "0"), ("updated_at", "0")]⟩ ∧
      ("password", bcryptGenerateFromPassword "secret1") ∈
        [("id", "alice"), ("username", "alice"), ("password", "bcrypt$secret1"),
         ("email", "a@x.com"), ("created_at", "0"), ("updated_at", "0")]) ∧
    (handlers.MeRoute mgrTiny []
        ("Bearer " ++ utils.GenerateAccessToken mgrTiny "ghost" 0) 0).1.status = 500 := by
  exact ⟨⟨by decide, by decide⟩, by decide⟩

/-! ## C9: ledger TTL and expires_in are hardcoded constants (corrected) -/

/-- C9 counterexample: under a configuration whose refresh-token TTL is 2 s
and access-token TTL 1 s, a successful login records the ledger entry with
TTL 604800 s (the hardcoded 7 days) — not the configured refresh window used
to sign the token's expiry — and answers expires_in = 900 s (the hardcoded
15 minutes) — not the configured access TTL. -/
theorem login_ledger_ttl_hardcoded_counterexample :
    (handlers.Login mgrTiny stAlice ⟨"alice", "secret1"⟩ 0).1.status = 200 ∧
    redisGet (handlers.Login mgrTiny stAlice ⟨"alice", "secret1"⟩ 0).2
      ("refresh_token:" ++ utils.GenerateRefreshToken mgrTiny "alice" 0) =
      some ⟨RVal.str "alice", 604800⟩ ∧
    (604800 : Int) ≠ mgrTiny.config.refreshTokenTTL ∧
    (handlers.Login mgrTiny stAlice ⟨"alice", "secret1"⟩ 0).1.body =
      Body.tokens (utils.GenerateAccessToken mgrTiny "alice" 0)
        (utils.GenerateRefreshToken mgrTiny "alice" 0) 900 ∧
    (900 : Int) ≠ mgrTiny.config.accessTokenTTL := by
  refine ⟨by decide, by decide, by decide, by decide, by decide⟩

/-- C9 amended: on every successful Login and every successful WeChat login,
the ledger entry recorded for the issued refresh token is written with TTL
exactly 7*24*3600 s and the response's expires_in is exactly 15*60 s — the
handler-hardcoded constants; these coincide with the configured refresh- and
access-token TTLs exactly when the configuration keeps the defaults of 7
days and 15 minutes. -/
theorem login_ledger_ttl_and_expires_in_constants (m : utils.JWTManager)
    (st : RedisStore) (lreq : handlers.LoginRequest)
    (c2s : String → Except String String) (wreq : handlers.WeChatLoginRequest)
    (now : Int) :
    ((handlers.Login m st lreq now).1.status = 200 →
      ∃ uid, handlers.Login m st lreq now =
        (⟨200, Body.tokens (utils.GenerateAccessToken m uid now)
            (utils.GenerateRefreshToken m uid now) (15*60)⟩,
         redisSet st ("refresh_token:" ++ utils.GenerateRefreshToken m uid now)
           (RVal.str uid) (7*24*3600))) ∧
    ((handlers.WeChatLogin m c2s st wreq now).1.status = 200 →
      ∃ uid st1, handlers.WeChatLogin m c2s st wreq now =
        (⟨200, Body.tokens (utils.GenerateAccessToken m uid now)
            (utils.GenerateRefreshToken m uid now) (15*60)⟩,
         redisSet st1 ("refresh_token:" ++ utils.GenerateRefreshToken m uid now)
           (RVal.str uid) (7*24*3600))) := by
  constructor
  · intro h
    unfold handlers.Login at h ⊢
    by_cases hb : lreq.username = "" ∨ lreq.password = ""
    · exfalso
      simp [hb] at h
    · cases hgu : models.UserStore.GetByUsername st lreq.username with
      | error e =>
        exfalso
        simp [hb, hgu] at h
      | ok user =>
        by_cases hpw : bcryptCompareHashAndPassword user.password lreq.password
        · refine ⟨user.id, ?_⟩
          simp [hb, hgu, hpw]
        · exfalso
          simp [hb, hgu, hpw] at h
  · intro h
    unfold handlers.WeChatLogin at h ⊢
    by_cases hb : wreq.code = ""
    · exfalso
      simp [hb] at h
    · cases hcs : c2s wreq.code with
      | error e =>
        exfalso
        simp [hb, hcs] at h
      | ok openID =>
        cases hcw : models.UserStore.CreateWeChatUser st openID now with
        | error e =>
          exfalso
          simp [hb, hcs, hcw] at h
        | ok p =>
          refine ⟨p.1.id, p.2, ?_⟩
          simp [hb, hcs, hcw]

/-- Witness for C9 (amended): a successful login and a successful WeChat
login under the tiny-TTL manager. -/
theorem login_ledger_ttl_and_expires_in_constants_witness :
    (handlers.Login mgrTiny stAlice ⟨"alice", "secret1"⟩ 0).1.status = 200 ∧
    (handlers.WeChatLogin mgrTiny code2sessionW stAlice ⟨"c1"⟩ 0).1.status = 200 ∧
    (∃ uid, handlers.Login mgrTiny stAlice ⟨"alice", "secret1"⟩ 0 =
      (⟨200, Body.tokens (utils.GenerateAccessToken mgrTiny uid 0)
          (utils.GenerateRefreshToken mgrTiny uid 0) (15*60)⟩,
       redisSet stAlice ("refresh_token:" ++ utils.GenerateRefreshToken mgrTiny uid 0)
         (RVal.str uid) (7*24*3600))) ∧
    (∃ uid st1, handlers.WeChatLogin mgrTiny code2sessionW stAlice ⟨"c1"⟩ 0 =
      (⟨200, Body.tokens (utils.GenerateAccessToken mgrTiny uid 0)
          (utils.GenerateRefreshToken mgrTiny uid 0) (15*60)⟩,
       redisSet st1 ("refresh_token:" ++ utils.GenerateRefreshToken mgrTiny uid 0)
         (RVal.str uid) (7*24*3600))) :=
  ⟨by decide, by decide,
   (login_ledger_ttl_and_expires_in_constants mgrTiny stAlice ⟨"alice", "secret1"⟩
     code2sessionW ⟨"c1"⟩ 0).1 (by decide),
   (login_ledger_ttl_and_expires_in_constants mgrTiny stAlice ⟨"alice", "secret1"⟩
     code2sessionW ⟨"c1"⟩ 0).2 (by decide)⟩

/-! ## C8: WeChat login is idempotent on the external identity -/

theorem getByID_redisSet_other (st : RedisStore) (k : String) (v : RVal)
    (ttl : Int) (i : String) (h : "user:" ++ i ≠ k) :
    models.UserStore.GetByID (redisSet st k v ttl) i =
      models.UserStore.GetByID st i := by
  unfold models.UserStore.GetByID
  rw [redisGet_redisSet_ne st k ("user:" ++ i) v ttl h]

theorem createWeChatUser_found (st : RedisStore) (o i : String) (e : RedisEntry)
    (u : models.User) (now : Int) (ho : o ≠ "")
    (hopen : redisGet st ("openid:" ++ o) = some e) (hev : e.value = RVal.str i)
    (hid : models.UserStore.GetByID st i = .ok u) :
    models.UserStore.CreateWeChatUser st o now = .ok (u, st) := by
  unfold models.UserStore.CreateWeChatUser
  rw [if_neg ho, hopen]
  simp only [hev, hid, Except.map]

theorem createWeChatUser_ok_state (st : RedisStore) (o : String) (now : Int)
    (u : models.User) (st' : RedisStore)
    (h : models.UserStore.CreateWeChatUser st o now = .ok (u, st')) :
    ∃ i e, redisGet st' ("openid:" ++ o) = some e ∧ e.value = RVal.str i ∧
      models.UserStore.GetByID st' i = .ok u := by
  unfold models.UserStore.CreateWeChatUser at h
  by_cases ho : o = ""
  · rw [if_pos ho] at h
    cases h
  · rw [if_neg ho] at h
    cases hg : redisGet st ("openid:" ++ o) with
    | some e =>
      rw [hg] at h
      cases hev : e.value with
      | str i =>
        cases hid : models.UserStore.GetByID st i with
        | ok u2 =>
          simp only [hev, hid, Except.map, Except.ok.injEq, Prod.mk.injEq] at h
          obtain ⟨h1, h2⟩ := h
          subst h1
          subst h2
          exact ⟨i, e, hg, hev, hid⟩
        | error e2 =>
          simp only [hev, hid, Except.map] at h
          cases h
      | user u2 =>
        simp only [hev] at h
        cases h
    | none =>
      rw [hg] at h
      simp only [Except.ok.injEq, Prod.mk.injEq] at h
      obtain ⟨h1, h2⟩ := h
      subst h1
      subst h2
      refine ⟨"wx_" ++ o, ⟨RVal.str ("wx_" ++ o), 0⟩, ?_, rfl, ?_⟩
      · rw [redisGet_redisSet_self]
      · unfold models.UserStore.GetByID
        rw [redisGet_redisSet_ne _ _ _ _ _ (userKey_ne_openidKey ("wx_" ++ o) o),
          redisGet_redisSet_ne _ _ _ _ _ (userKey_ne_usernameKey ("wx_" ++ o) ("wx_" ++ o)),
          redisGet_redisSet_self]

/-- C8: two WeChat logins whose (possibly different) one-time codes resolve
to the same external OpenID resolve to the same primary identity: when the
first login succeeds, the first response carries tokens for some principal
u.id; the second find-or-create returns that very identity and leaves the
store exactly as it was (no duplicate record), and the second login answers
with tokens for the same u.id, its only store write being the new refresh
ledger entry. -/
theorem wechat_login_idempotent_on_openid (m : utils.JWTManager)
    (c2s : String → Except String String) (st : RedisStore)
    (c1 c2 o : String) (now1 now2 : Int) (resp1 : HResp) (st1 : RedisStore)
    (hc1 : c2s c1 = .ok o) (hc2 : c2s c2 = .ok o) (hb2 : c2 ≠ "")
    (hrun : handlers.WeChatLogin m c2s st ⟨c1⟩ now1 = (resp1, st1))
    (hok : resp1.status = 200) :
    ∃ u : models.User,
      resp1 = ⟨200, Body.tokens (utils.GenerateAccessToken m u.id now1)
        (utils.GenerateRefreshToken m u.id now1) (15*60)⟩ ∧
      models.UserStore.CreateWeChatUser st1 o now2 = .ok (u, st1) ∧
      handlers.WeChatLogin m c2s st1 ⟨c2⟩ now2 =
        (⟨200, Body.tokens (utils.GenerateAccessToken m u.id now2)
            (utils.GenerateRefreshToken m u.id now2) (15*60)⟩,
         redisSet st1 ("refresh_token:" ++ utils.GenerateRefreshToken m u.id now2)
           (RVal.str u.id) (7*24*3600)) := by
  unfold handlers.WeChatLogin at hrun
  by_cases hb1 : c1 = ""
  · exfalso
    simp only [hb1] at hrun
    simp at hrun
    obtain ⟨h1, -⟩ := hrun
    rw [← h1] at hok
    simp at hok
  · simp only [if_neg hb1, hc1] at hrun
    cases hcr : models.UserStore.CreateWeChatUser st o now1 with
    | error e =>
      exfalso
      rw [hcr] at hrun
      injection hrun with h1 h2
      rw [← h1] at hok
      simp at hok
    | ok p =>
      obtain ⟨u0, stc⟩ := p
      rw [hcr] at hrun
      injection hrun with h1 h2
      subst h1
      subst h2
      have ho : o ≠ "" := by
        intro hoe
        rw [hoe] at hcr
        unfold models.UserStore.CreateWeChatUser at hcr
        simp at hcr
      obtain ⟨i, e, hopen, hev, hid⟩ :=
        createWeChatUser_ok_state st o now1 u0 stc hcr
      have hopen1 : redisGet
          (redisSet stc ("refresh_token:" ++ utils.GenerateRefreshToken m u0.id now1)
            (RVal.str u0.id) (7*24*3600)) ("openid:" ++ o) = some e := by
        rw [redisGet_redisSet_ne _ _ _ _ _
          (Ne.symm (refreshKey_ne_openidKey (utils.GenerateRefreshToken m u0.id now1) o))]
        exact hopen
      have hid1 : models.UserStore.GetByID
          (redisSet stc ("refresh_token:" ++ utils.GenerateRefreshToken m u0.id now1)
            (RVal.str u0.id) (7*24*3600)) i = .ok u0 := by
        rw [getByID_redisSet_other _ _ _ _ _
          (Ne.symm (refreshKey_ne_userKey (utils.GenerateRefreshToken m u0.id now1) i))]
        exact hid
      have h2nd := createWeChatUser_found _ o i e u0 now2 ho hopen1 hev hid1
      refine ⟨u0, rfl, h2nd, ?_⟩
      unfold handlers.WeChatLogin
      simp only [if_neg hb2, hc2, h2nd]

/-- Witness for C8: two different codes resolving to the OpenID oid, run
from the empty store. -/
theorem wechat_login_idempotent_on_openid_witness :
    code2sessionW "c1" = .ok "oid" ∧ code2sessionW "c2" = .ok "oid" ∧
    (∃ u : models.User,
      (handlers.WeChatLogin mgrTiny code2sessionW [] ⟨"c1"⟩ 0).1 =
        ⟨200, Body.tokens (utils.GenerateAccessToken mgrTiny u.id 0)
          (utils.GenerateRefreshToken mgrTiny u.id 0) (15*60)⟩ ∧
      models.UserStore.CreateWeChatUser
          (handlers.WeChatLogin mgrTiny code2sessionW [] ⟨"c1"⟩ 0).2 "oid" 1 =
        .ok (u, (handlers.WeChatLogin mgrTiny code2sessionW [] ⟨"c1"⟩ 0).2) ∧
      handlers.WeChatLogin mgrTiny code2sessionW
          (handlers.WeChatLogin mgrTiny code2sessionW [] ⟨"c1"⟩ 0).2 ⟨"c2"⟩ 1 =
        (⟨200, Body.tokens (utils.GenerateAccessToken mgrTiny u.id 1)
            (utils.GenerateRefreshToken mgrTiny u.id 1) (15*60)⟩,
         redisSet (handlers.WeChatLogin mgrTiny code2sessionW [] ⟨"c1"⟩ 0).2
           ("refresh_token:" ++ utils.GenerateRefreshToken mgrTiny u.id 1)
           (RVal.str u.id) (7*24*3600))) :=
  ⟨rfl, rfl,
   wechat_login_idempotent_on_openid mgrTiny code2sessionW [] "c1" "c2" "oid" 0 1
     (handlers.WeChatLogin mgrTiny code2sessionW [] ⟨"c1"⟩ 0).1
     (handlers.WeChatLogin mgrTiny code2sessionW [] ⟨"c1"⟩ 0).2
     rfl rfl (by decide) rfl (by decide)⟩
